import Mathlib

/-!
Shallow embedding of the probe aggregation and benchmarking engine of the
local-AI-setup diagnostic toolkit (scripts/benchmark.py and
scripts/health_check.py), together with proofs settling the frozen claims
about it.

Numeric values that the Python code holds as floats are modelled as
rationals; Python round() uses banker rounding at exact .5 ties, modelled
here with Mathlib round (nearest, half away from the floor side) — no
claim depends on tie behaviour of rounding.
-/

namespace LocalAI

/-- A status value as stored in the results checks map of health_check.py
(the code only ever stores the strings OK, WARNING and ERROR there; INFO
is used for printing only, never recorded). -/
inductive Status
  | OK
  | WARNING
  | ERROR
  deriving DecidableEq

/-- round(x, 2) of Python, on rationals. -/
def round2 (q : ℚ) : ℚ := (round (q * 100) : ℤ) / 100

/-- round(x, 1) of Python, on rationals. -/
def round1 (q : ℚ) : ℚ := (round (q * 10) : ℤ) / 10

/-- round(x) of Python (to an integer), on rationals. -/
def round0 (q : ℚ) : ℤ := round q

/-! ## benchmark.py -/

/-- The outcome of the single inference probe
(run_command (ollama run model prompt) with timeout 120, benchmark.py
lines 83-126), as the surrounding try/except of benchmark_model
distinguishes it: a normal return carrying stdout and the elapsed
wall-clock time, a subprocess.TimeoutExpired, or any other exception
(carrying its message and the elapsed time at which it was raised). -/
inductive ProbeOutcome
  | ok (stdout : String) (elapsed : ℚ)
  | timeoutExpired
  | exc (msg : String) (elapsed : ℚ)
  deriving DecidableEq

/-- The timeout (seconds) passed to run_command for the inference probe,
benchmark.py line 86. -/
def BENCH_TIMEOUT : ℚ := 120

/-- The record built by benchmark_model, benchmark.py lines 97-126. -/
structure BenchmarkResult where
  model : String
  success : Bool
  response_time : ℚ
  tokens_generated : ℤ
  tokens_per_second : ℚ
  response_length : ℕ
  error : Option String
  deriving DecidableEq

/-- Python str.strip(): drop leading and trailing whitespace. -/
def pyStrip (s : String) : String := s.trim

/-- Python str.split() with no argument: split on runs of whitespace,
dropping empty pieces. -/
def pySplitWs (s : String) : List String :=
  (s.split Char.isWhitespace).filter (fun w => w ≠ "")

/-- benchmark_model (benchmark.py lines 77-126): convert the probe
outcome for one (model, prompt) case into a BenchmarkResult.  The success
branch estimates tokens as word count times 1.3 and derives tokens per
second, guarding against a non-positive elapsed time; the
TimeoutExpired branch pins the response time to the 120 s timeout; any
other exception is stringified into the error field. -/
def benchmark_model (model_name : String) (outcome : ProbeOutcome) :
    BenchmarkResult :=
  match outcome with
  | .ok stdout elapsed =>
      let response := pyStrip stdout
      let response_tokens : ℚ := ((pySplitWs response).length : ℚ) * (13 / 10)
      let tokens_per_second : ℚ :=
        if 0 < elapsed then response_tokens / elapsed else 0
      { model := model_name
        success := true
        response_time := round2 elapsed
        tokens_generated := round0 response_tokens
        tokens_per_second := round2 tokens_per_second
        response_length := response.length
        error := none }
  | .timeoutExpired =>
      { model := model_name
        success := false
        response_time := BENCH_TIMEOUT
        tokens_generated := 0
        tokens_per_second := 0
        response_length := 0
        error := some "timeout" }
  | .exc msg elapsed =>
      { model := model_name
        success := false
        response_time := elapsed
        tokens_generated := 0
        tokens_per_second := 0
        response_length := 0
        error := some msg }

/-- The per-target aggregate stored under the summary key,
benchmark.py lines 179-188. -/
structure TargetSummary where
  average_response_time : ℚ
  average_tokens_per_second : ℚ
  success_rate : ℚ
  total_tests : ℕ
  successful_tests : ℕ
  deriving DecidableEq

/-- The average computation of run_comprehensive_benchmark,
benchmark.py lines 168-188: filter the successful results; when some
exist, average response time and tokens/sec over them and take the
success rate over the prompt count; otherwise all three are 0. -/
def modelSummary (test_prompts_len : ℕ) (model_results : List BenchmarkResult) :
    TargetSummary :=
  let successful_tests := model_results.filter (fun r => r.success)
  let stats : ℚ × ℚ × ℚ :=
    if successful_tests.isEmpty then (0, 0, 0)
    else
      ((successful_tests.map (fun r => r.response_time)).sum /
          (successful_tests.length : ℚ),
       (successful_tests.map (fun r => r.tokens_per_second)).sum /
          (successful_tests.length : ℚ),
       (successful_tests.length : ℚ) / (test_prompts_len : ℚ) * 100)
  { average_response_time := round2 stats.1
    average_tokens_per_second := round2 stats.2.1
    success_rate := round1 stats.2.2
    total_tests := test_prompts_len
    successful_tests := successful_tests.length }

/-- The per-model inner loop of run_comprehensive_benchmark
(benchmark.py lines 154-158): one benchmark_model call per prompt, in
order; probe gives the environment outcome of each case. -/
def modelResults (probe : String → ProbeOutcome) (model : String)
    (test_prompts : List String) : List BenchmarkResult :=
  test_prompts.map (fun p => benchmark_model model (probe p))

/-- run_comprehensive_benchmark (benchmark.py lines 138-204), with the
outcome of every (model, prompt) inference probe supplied as an
environment: for each model, all prompts are run and the summary
computed. -/
def run_comprehensive_benchmark (models : List String)
    (probe : String → String → ProbeOutcome) (test_prompts : List String) :
    List (String × List BenchmarkResult × TargetSummary) :=
  models.map (fun model =>
    let results := modelResults (probe model) model test_prompts
    (model, results, modelSummary test_prompts.length results))

/-- The ranking computed by print_results_summary (benchmark.py lines
244-248): sorted(results.items(), key=avg tokens/sec, reverse=True).
Python sorted is a stable sort; with reverse=True it orders by the key
descending while equal keys keep their original (insertion) order, which
is exactly stable merge sort under the relation
(le x y iff key y <= key x). -/
def sorted_models (results : List (String × TargetSummary)) :
    List (String × TargetSummary) :=
  results.mergeSort (fun x y =>
    decide (y.2.average_tokens_per_second ≤ x.2.average_tokens_per_second))

/-- Does a probe outcome denote a failure (timeout or exception)? -/
def probeFails : ProbeOutcome → Bool
  | .ok _ _ => false
  | .timeoutExpired => true
  | .exc _ _ => true

/-! ## health_check.py

Each check_* method of HealthChecker only mutates the results checks map
(up to printing); it is embedded as a function from an environment record
(the observable outcomes of its probes) to the ordered list of
(key, status) entries it appends.  Every method wraps its body in a
try/except Exception that records a single ERROR entry; the environments
carry a raises flag for an exception escaping the inner handlers (for
instance psutil.process_iter raising when psutil is unavailable), which
the outer handler catches before any entry of that category is
recorded. -/

/-- Outcome of a requests.get call as the call sites distinguish it: a
response with a status code, a ConnectionError, or a Timeout. -/
inductive ApiOutcome
  | status (code : ℕ)
  | connError
  | timeout
  deriving DecidableEq

/-- One entry of the models array of the tags endpoint answer. -/
structure OllamaModel where
  name : String
  size : ℕ
  deriving DecidableEq

/-- Outcome of the tags-endpoint probe (health_check.py lines 175-193):
a response carrying a status code and the decoded models list, or any
exception (its own handler catches every Exception). -/
inductive TagsOutcome
  | status (code : ℕ) (models : List OllamaModel)
  | exc (msg : String)
  deriving DecidableEq

/-- Environment of check_ollama_service: outer-exception flag, whether a
process named ollama is found, and the outcomes of the health- and
tags-endpoint probes. -/
structure OllamaEnv where
  raises : Bool
  processRunning : Bool
  api : ApiOutcome
  tags : TagsOutcome
  deriving DecidableEq

/-- check_ollama_service (health_check.py lines 141-197), as the list of
checks-map entries it records.  A running process records nothing (only
the not-running branch stores a status, line 156); the health endpoint
maps 200 to OK, another code to WARNING, ConnectionError to ERROR and
Timeout to WARNING; the tags probe records OK whenever the status code
is 200 — whether or not the models list is empty (the assignment at line
187 sits outside the model-count branch) — WARNING on another code and
ERROR on an exception. -/
def check_ollama_service (e : OllamaEnv) : List (String × Status) :=
  if e.raises then [("ollama_service", .ERROR)]
  else
    (if e.processRunning then [] else [("ollama_process", .WARNING)]) ++
    (match e.api with
      | .status code =>
          if code = 200 then [("ollama_api", .OK)] else [("ollama_api", .WARNING)]
      | .connError => [("ollama_api", .ERROR)]
      | .timeout => [("ollama_api", .WARNING)]) ++
    (match e.tags with
      | .status code _ =>
          if code = 200 then [("ollama_models", .OK)]
          else [("ollama_models", .WARNING)]
      | .exc _ => [("ollama_models", .ERROR)])

/-- The status printed for the Models line by check_ollama_service
(health_check.py lines 180-192): with a 200 answer the printed status is
OK when models exist and WARNING when the list is empty — unlike the
recorded status, which is OK in both cases. -/
def ollama_models_printed_status (t : TagsOutcome) : Status :=
  match t with
  | .status code models =>
      if code = 200 then
        if models.length > 0 then .OK else .WARNING
      else .WARNING
  | .exc _ => .ERROR

/-- Environment of check_llama_cpp: outer-exception flag, whether a
process with server in its command line is found, the health-endpoint
outcome, whether the models directory exists, and the gguf files in
it. -/
structure LlamaEnv where
  raises : Bool
  serverRunning : Bool
  api : ApiOutcome
  modelDirExists : Bool
  ggufModels : List String
  deriving DecidableEq

/-- check_llama_cpp (health_check.py lines 199-256).  A running server
process records nothing (only the not-running branch stores a status,
line 218); the health endpoint maps 200 to OK and every failure —
another code, ConnectionError or Timeout — to WARNING; an existing
models directory records OK whether or not it holds gguf files (the
assignment at line 249 sits outside the if/else on the file list), a
missing directory records WARNING. -/
def check_llama_cpp (e : LlamaEnv) : List (String × Status) :=
  if e.raises then [("llama_cpp", .ERROR)]
  else
    (if e.serverRunning then [] else [("llama_cpp_server", .WARNING)]) ++
    (match e.api with
      | .status code =>
          if code = 200 then [("llama_cpp_api", .OK)]
          else [("llama_cpp_api", .WARNING)]
      | .connError => [("llama_cpp_api", .WARNING)]
      | .timeout => [("llama_cpp_api", .WARNING)]) ++
    (if e.modelDirExists then [("llama_cpp_models", .OK)]
     else [("llama_cpp_models", .WARNING)])

/-- Outcome of the code --list-extensions probe: its stdout, or any of
the caught failures (timeout, subprocess error, command not found). -/
inductive VscodeExtOutcome
  | listed (hasContinueExt : Bool)
  | unavailable
  deriving DecidableEq

/-- Environment of check_vscode_integration. -/
structure VscodeEnv where
  raises : Bool
  continueConfigExists : Bool
  ext : VscodeExtOutcome
  deriving DecidableEq

/-- check_vscode_integration (health_check.py lines 258-291): the config
file present records OK, absent records WARNING; the extension listing
records OK or WARNING by whether continue.continue occurs in the output,
and an unavailable code command records a vscode WARNING instead. -/
def check_vscode_integration (e : VscodeEnv) : List (String × Status) :=
  if e.raises then [("vscode_integration", .ERROR)]
  else
    (if e.continueConfigExists then [("continue_config", .OK)]
     else [("continue_config", .WARNING)]) ++
    (match e.ext with
      | .listed hasContinueExt =>
          if hasContinueExt then [("continue_extension", .OK)]
          else [("continue_extension", .WARNING)]
      | .unavailable => [("vscode", .WARNING)])

/-- Outcome of the internet probe of check_network_connectivity: a
response (its status code is never inspected) or a ConnectionError.  A
Timeout there is not caught by the inner handler and escapes to the
outer one, so it is part of the raises flag. -/
inductive InternetOutcome
  | status (code : ℕ)
  | connError
  deriving DecidableEq

/-- Environment of check_network_connectivity: outer-exception flag, the
internet-probe outcome, and for each of the three probed ports whether
the TCP connect succeeded. -/
structure NetworkEnv where
  raises : Bool
  internet : InternetOutcome
  portResults : List Bool
  deriving DecidableEq

/-- check_network_connectivity (health_check.py lines 293-326): the
internet probe records OK on any response and WARNING on a
ConnectionError; the port loop (lines 314-322) prints one line per port
but records nothing in the checks map in either branch. -/
def check_network_connectivity (e : NetworkEnv) : List (String × Status) :=
  if e.raises then [("network", .ERROR)]
  else
    (match e.internet with
      | .status _ => [("internet", .OK)]
      | .connError => [("internet", .WARNING)]) ++
    (e.portResults.map (fun _ => ([] : List (String × Status)))).flatten

/-- CPU usage classification of check_performance_metrics
(health_check.py lines 334-343). -/
def classify_cpu (p : ℚ) : Status :=
  if p < 50 then .OK else if p < 80 then .WARNING else .ERROR

/-- Memory usage classification of check_performance_metrics
(health_check.py lines 346-355). -/
def classify_memory (p : ℚ) : Status :=
  if p < 70 then .OK else if p < 85 then .WARNING else .ERROR

/-- Disk usage classification of check_performance_metrics
(health_check.py lines 358-368). -/
def classify_disk (p : ℚ) : Status :=
  if p < 80 then .OK else if p < 90 then .WARNING else .ERROR

/-- Environment of check_performance_metrics: outer-exception flag, the
sampled CPU and memory percentages, the disk usage counters, and the
number of AI-related processes found. -/
structure PerfEnv where
  raises : Bool
  cpu_percent : ℚ
  memory_percent : ℚ
  disk_used : ℚ
  disk_total : ℚ
  aiProcessCount : ℕ
  deriving DecidableEq

/-- check_performance_metrics (health_check.py lines 328-391): classify
CPU, memory and disk utilization by the threshold rules; a non-empty set
of AI processes records nothing, an empty one records a WARNING. -/
def check_performance_metrics (e : PerfEnv) : List (String × Status) :=
  if e.raises then [("performance", .ERROR)]
  else
    [("cpu_usage", classify_cpu e.cpu_percent),
     ("memory_usage", classify_memory e.memory_percent),
     ("disk_usage", classify_disk (e.disk_used / e.disk_total * 100))] ++
    (if e.aiProcessCount = 0 then [("ai_processes", .WARNING)] else [])

/-- Environment of check_system_info: whether psutil imported, whether
the fallback path raises, whether the psutil path raises, and the
sampled total memory in GB. -/
structure SysEnv where
  hasPsutil : Bool
  fallbackRaises : Bool
  raises : Bool
  memory_gb : ℚ
  deriving DecidableEq

/-- check_system_info (health_check.py lines 73-139), reduced to what
later code reads: the recorded entry (WARNING or ERROR without psutil by
whether the fallback path raises; OK or ERROR with it) and the
memory_total_gb field of the system_info snapshot, stored rounded to one
decimal only on the successful psutil path. -/
def check_system_info (e : SysEnv) : List (String × Status) × Option ℚ :=
  if ¬ e.hasPsutil then
    if e.fallbackRaises then ([("system_info", .ERROR)], none)
    else ([("system_info", .WARNING)], none)
  else if e.raises then ([("system_info", .ERROR)], none)
  else ([("system_info", .OK)], some (round1 e.memory_gb))

/-- Lookup in the checks map, as results["checks"].get(key) does. -/
def getCheck (checks : List (String × Status)) (key : String) : Option Status :=
  (checks.find? (fun c => c.1 = key)).map (fun c => c.2)

/-- The memory-tier rule of generate_recommendations (health_check.py
lines 421-428): at least 16 GB suggests larger models, at least 8 GB
medium models, anything below small models. -/
def memory_tier_rec (memory_gb : ℚ) : String :=
  if memory_gb ≥ 16 then
    "Consider downloading larger models (13B+) for better coding assistance"
  else if memory_gb ≥ 8 then
    "Medium models (7B-13B) should provide good performance"
  else
    "Limited memory - stick to small models (3B-7B)"

/-- generate_recommendations (health_check.py lines 393-443): the rules
fire independently, in a fixed order, on the checks map; the memory-tier
rule reads memory_total_gb from the system_info snapshot with default 0
and always appends exactly one entry; the platform rule appends one hint
on darwin or linux. -/
def generate_recommendations (checks : List (String × Status))
    (memory_total_gb : Option ℚ) (platform : String) : List String :=
  (if getCheck checks "ollama_process" = some .WARNING then
    ["Start Ollama: ~/.ollama/start.sh"] else []) ++
  (if getCheck checks "ollama_api" = some .ERROR then
    ["Check if Ollama service is running: ~/.ollama/status.sh"] else []) ++
  (if getCheck checks "ollama_models" = some .WARNING then
    ["Download models: ollama pull dolphin-mistral:7b-dpo-laser"] else []) ++
  (if getCheck checks "continue_extension" = some .WARNING then
    ["Install Continue.dev: code --install-extension continue.continue"] else []) ++
  (if getCheck checks "cpu_usage" = some .ERROR then
    ["High CPU usage - close unnecessary applications"] else []) ++
  (if getCheck checks "memory_usage" = some .ERROR then
    ["High memory usage - restart applications or add more RAM"] else []) ++
  (if getCheck checks "disk_usage" = some .ERROR then
    ["Low disk space - free up space or move models to external drive"] else []) ++
  [memory_tier_rec (memory_total_gb.getD 0)] ++
  (if platform = "darwin" then
    ["For Apple Silicon: Ensure Metal acceleration is enabled (LLAMA_METAL=1)"]
   else if platform.startsWith "linux" then
    ["Consider installing CUDA drivers for NVIDIA GPU acceleration"]
   else [])

/-- The whole-run environment of run_full_check. -/
structure HealthEnv where
  sys : SysEnv
  ollama : OllamaEnv
  llama : LlamaEnv
  vscode : VscodeEnv
  network : NetworkEnv
  perf : PerfEnv
  platform : String

/-- The checks map accumulated by the six check methods of
run_full_check (health_check.py lines 460-465), in execution order. -/
def run_checks (e : HealthEnv) : List (String × Status) :=
  (check_system_info e.sys).1 ++
  check_ollama_service e.ollama ++
  check_llama_cpp e.llama ++
  check_vscode_integration e.vscode ++
  check_network_connectivity e.network ++
  check_performance_metrics e.perf

/-- Number of checks whose recorded status is ERROR (health_check.py
line 473 and line 508). -/
def errorCount (checks : List (String × Status)) : ℕ :=
  checks.countP (fun c => decide (c.2 = Status.ERROR))

/-- Number of checks whose recorded status is WARNING (health_check.py
line 472). -/
def warningCount (checks : List (String × Status)) : ℕ :=
  checks.countP (fun c => decide (c.2 = Status.WARNING))

/-- The three overall verdicts of the summary (health_check.py lines
481-489). -/
inductive Verdict
  | healthy
  | degraded
  | critical
  deriving DecidableEq

/-- The overall-status rule of run_full_check (health_check.py lines
481-489): no errors is healthy, fewer errors than warnings is degraded,
anything else is critical. -/
def overall_status (error_count warning_count : ℕ) : Verdict :=
  if error_count = 0 then .healthy
  else if error_count < warning_count then .degraded
  else .critical

/-- run_full_check (health_check.py lines 454-493): run every check in
order, generate the recommendations, and derive the verdict from the
error and warning counts of the final checks map. -/
def run_full_check (e : HealthEnv) :
    List (String × Status) × List String × Verdict :=
  let checks := run_checks e
  (checks,
   generate_recommendations checks (check_system_info e.sys).2 e.platform,
   overall_status (errorCount checks) (warningCount checks))

/-- The exit status computed by main (health_check.py lines 507-509):
zero exactly when no check recorded ERROR. -/
def main_exit_code (checks : List (String × Status)) : ℕ :=
  if errorCount checks = 0 then 0 else 1

/-! ## Definitions supporting the claim statements -/

/-- Modelled from the spec wording of the memory-tier claim, for
comparison with the code: the tier index of a total memory under the
partition at 32 GB and 16 GB the claim states. -/
def memTierSpec (m : ℚ) : ℕ :=
  if m ≥ 32 then 2 else if m ≥ 16 then 1 else 0

/-- The tier index of a total memory under the partition the code
actually uses (health_check.py lines 423-427): 16 GB and 8 GB. -/
def memTierCode (m : ℚ) : ℕ :=
  if m ≥ 16 then 2 else if m ≥ 8 then 1 else 0

/-- Is a recommendation string one of the three model-size-class
recommendations of the memory-tier rule? -/
def isSizeClassRec (s : String) : Bool :=
  s == "Consider downloading larger models (13B+) for better coding assistance" ||
  s == "Medium models (7B-13B) should provide good performance" ||
  s == "Limited memory - stick to small models (3B-7B)"

/-- A target summary with a given average tokens/sec, for the concrete
ranking example. -/
def exampleSummary (tps : ℚ) : TargetSummary :=
  { average_response_time := 1
    average_tokens_per_second := tps
    success_rate := 100
    total_tests := 5
    successful_tests := 5 }

/-- A run environment in which every check category hits its outer
exception handler. -/
def envAllRaises : HealthEnv :=
  { sys := { hasPsutil := true, fallbackRaises := false, raises := true,
             memory_gb := 16 }
    ollama := { raises := true, processRunning := true, api := .status 200,
                tags := .status 200 [] }
    llama := { raises := true, serverRunning := true, api := .status 200,
               modelDirExists := true, ggufModels := [] }
    vscode := { raises := true, continueConfigExists := true,
                ext := .listed true }
    network := { raises := true, internet := .status 200,
                 portResults := [true, true, false] }
    perf := { raises := true, cpu_percent := 10, memory_percent := 10,
              disk_used := 10, disk_total := 100, aiProcessCount := 1 }
    platform := "darwin" }

/-- A concrete successful benchmark result, for witnesses. -/
def okResult : BenchmarkResult :=
  { model := "m"
    success := true
    response_time := 2
    tokens_generated := 10
    tokens_per_second := 5
    response_length := 4
    error := none }

/-- Environment of check_ollama_service in which the daemon is healthy
but the tags endpoint answers 200 with an empty models list. -/
def emptyModelsEnv : OllamaEnv :=
  { raises := false
    processRunning := true
    api := .status 200
    tags := .status 200 [] }

/-! ## Theorems settling the claims -/

/-- The port loop of check_network_connectivity contributes no entry to
the checks map, whatever the connect results are. -/
theorem portLoop_records_nothing (l : List Bool) :
    (l.map (fun _ => ([] : List (String × Status)))).flatten = [] := by
  induction l with
  | nil => rfl
  | cons h t ih => simp [ih]

/-- Filtering a conditional singleton whose element fails the predicate
gives the empty list. -/
theorem filter_ite_single {α : Type} (p : α → Bool) (c : Prop) [Decidable c]
    (a : α) (ha : p a = false) :
    List.filter p (if c then [a] else []) = [] := by
  split_ifs <;> simp [List.filter, ha]

/-- C5: a benchmark case whose inference probe raises TimeoutExpired
produces a BenchmarkResult with success false, response time equal to
the configured 120-second timeout, zero tokens, zero tokens/sec and
error "timeout". -/
theorem c5_timeout_result (model : String) :
    benchmark_model model .timeoutExpired =
      { model := model
        success := false
        response_time := BENCH_TIMEOUT
        tokens_generated := 0
        tokens_per_second := 0
        response_length := 0
        error := some "timeout" } ∧
    BENCH_TIMEOUT = 120 :=
  ⟨rfl, rfl⟩

/-- C3: the performance-metric classifications are exactly the claimed
threshold partitions — CPU OK below 50, WARNING in [50, 80), ERROR from
80; memory with 70 and 85; disk with 80 and 90 — including the stated
boundary cases 49.9, 50.0, 79.9 and 80.0 for CPU. -/
theorem c3_classification_thresholds (p : ℚ) :
    (classify_cpu p = .OK ↔ p < 50) ∧
    (classify_cpu p = .WARNING ↔ 50 ≤ p ∧ p < 80) ∧
    (classify_cpu p = .ERROR ↔ 80 ≤ p) ∧
    (classify_memory p = .OK ↔ p < 70) ∧
    (classify_memory p = .WARNING ↔ 70 ≤ p ∧ p < 85) ∧
    (classify_memory p = .ERROR ↔ 85 ≤ p) ∧
    (classify_disk p = .OK ↔ p < 80) ∧
    (classify_disk p = .WARNING ↔ 80 ≤ p ∧ p < 90) ∧
    (classify_disk p = .ERROR ↔ 90 ≤ p) ∧
    classify_cpu (499 / 10) = .OK ∧
    classify_cpu 50 = .WARNING ∧
    classify_cpu (799 / 10) = .WARNING ∧
    classify_cpu 80 = .ERROR := by
  refine ⟨?_, ?_, ?_, ?_, ?_, ?_, ?_, ?_, ?_, by norm_num [classify_cpu],
    by norm_num [classify_cpu], by norm_num [classify_cpu],
    by norm_num [classify_cpu]⟩ <;>
  · simp only [classify_cpu, classify_memory, classify_disk]
    split_ifs <;> simp_all <;> linarith

/-- C2: the overall verdict of a full check run is healthy exactly when
the final checks map holds no ERROR, degraded exactly when it holds
fewer errors than warnings (and at least one error), and critical
otherwise — in particular the tie resolves to critical — matching the
four quoted count examples. -/
theorem c2_verdict (e : HealthEnv) :
    ((run_full_check e).2.2 = .healthy ↔ errorCount (run_checks e) = 0) ∧
    ((run_full_check e).2.2 = .degraded ↔
      0 < errorCount (run_checks e) ∧
        errorCount (run_checks e) < warningCount (run_checks e)) ∧
    ((run_full_check e).2.2 = .critical ↔
      0 < errorCount (run_checks e) ∧
        warningCount (run_checks e) ≤ errorCount (run_checks e)) ∧
    overall_status 0 3 = .healthy ∧
    overall_status 1 3 = .degraded ∧
    overall_status 3 1 = .critical ∧
    overall_status 2 2 = .critical := by
  have h : ∀ er w : ℕ,
      (overall_status er w = .healthy ↔ er = 0) ∧
      (overall_status er w = .degraded ↔ 0 < er ∧ er < w) ∧
      (overall_status er w = .critical ↔ 0 < er ∧ w ≤ er) := by
    intro er w
    unfold overall_status
    split_ifs <;> simp_all <;> omega
  refine ⟨(h _ _).1, (h _ _).2.1, (h _ _).2.2, ?_, ?_, ?_, ?_⟩ <;> rfl

/-- C9: after a full health run the exit status is 0 exactly when no
recorded check has status ERROR, and non-zero exactly when some check
does; WARNING statuses never affect it. -/
theorem c9_exit_code :
    (∀ e : HealthEnv,
      main_exit_code (run_full_check e).1 = 0 ↔
        ∀ c ∈ (run_full_check e).1, c.2 ≠ Status.ERROR) ∧
    (∀ checks : List (String × Status),
      (main_exit_code checks = 0 ↔ ∀ c ∈ checks, c.2 ≠ Status.ERROR) ∧
      (main_exit_code checks ≠ 0 ↔ ∃ c ∈ checks, c.2 = Status.ERROR)) := by
  have h : ∀ checks : List (String × Status),
      main_exit_code checks = 0 ↔ ∀ c ∈ checks, c.2 ≠ Status.ERROR := by
    intro checks
    unfold main_exit_code errorCount
    split_ifs with hc
    · simp only [List.countP_eq_zero, decide_eq_true_eq] at hc
      simpa using hc
    · simp only [List.countP_eq_zero, decide_eq_true_eq] at hc
      push_neg at hc
      simpa using hc
  refine ⟨fun e => h _, fun checks => ⟨h checks, ?_⟩⟩
  have h2 := (h checks).not
  push_neg at h2
  exact h2

/-- C4: a target with no successful benchmark result gets a summary with
average response time, average tokens/sec and success rate all 0; with
successes, the averages are taken only over the successful results and
the success rate is successful/total times 100 (rounded for display as
the code does). -/
theorem c4_summary_averages (n : ℕ) (rs : List BenchmarkResult) :
    (rs.filter (fun r => r.success) = [] →
      (modelSummary n rs).average_response_time = 0 ∧
      (modelSummary n rs).average_tokens_per_second = 0 ∧
      (modelSummary n rs).success_rate = 0) ∧
    (rs.filter (fun r => r.success) ≠ [] →
      (modelSummary n rs).average_response_time =
        round2 (((rs.filter (fun r => r.success)).map
            (fun r => r.response_time)).sum /
          ((rs.filter (fun r => r.success)).length : ℚ)) ∧
      (modelSummary n rs).average_tokens_per_second =
        round2 (((rs.filter (fun r => r.success)).map
            (fun r => r.tokens_per_second)).sum /
          ((rs.filter (fun r => r.success)).length : ℚ)) ∧
      (modelSummary n rs).success_rate =
        round1 (((rs.filter (fun r => r.success)).length : ℚ) / (n : ℚ) * 100)) := by
  constructor
  · intro hempty
    simp [modelSummary, hempty, round2, round1]
  · intro hne
    have hfalse : (rs.filter (fun r => r.success)).isEmpty = false := by
      simpa [List.isEmpty_iff] using hne
    simp [modelSummary, hfalse]

/-- C4 witness: the theorem applied at a singleton failing list (empty
successful set gives zeros) and at a singleton succeeding list. -/
theorem c4_summary_averages_witness :
    ((modelSummary 5 [benchmark_model "m" ProbeOutcome.timeoutExpired]).average_response_time = 0 ∧
      (modelSummary 5 [benchmark_model "m" ProbeOutcome.timeoutExpired]).average_tokens_per_second = 0 ∧
      (modelSummary 5 [benchmark_model "m" ProbeOutcome.timeoutExpired]).success_rate = 0) ∧
    (modelSummary 5 [okResult]).success_rate =
      round1 ((([okResult].filter (fun r => r.success)).length : ℚ) /
        (5 : ℚ) * 100) :=
  ⟨(c4_summary_averages 5 _).1 (by decide),
   ((c4_summary_averages 5 _).2 (by decide)).2.2⟩

/-- C1: batch isolation.  Every benchmark case of every target yields
exactly one result whatever its probe outcome is (the per-model and the
whole-run loops produce one result per case, so no failure aborts the
batch), a failing probe outcome is converted into a failure-classified
result (success false with an error recorded), and in run_full_check a
category whose body raises records an ERROR entry for that category
while the remaining categories — in particular the last one — still
contribute their entries. -/
theorem c1_batch_isolation :
    (∀ (probe : String → ProbeOutcome) (model : String)
        (prompts : List String),
      (modelResults probe model prompts).length = prompts.length) ∧
    (∀ (models : List String) (probe : String → String → ProbeOutcome)
        (prompts : List String),
      (run_comprehensive_benchmark models probe prompts).length =
        models.length ∧
      ∀ entry ∈ run_comprehensive_benchmark models probe prompts,
        entry.2.1.length = prompts.length) ∧
    (∀ (model : String) (o : ProbeOutcome), probeFails o = true →
      (benchmark_model model o).success = false ∧
      (benchmark_model model o).error ≠ none) ∧
    (∀ e : HealthEnv,
      (e.ollama.raises = true →
        ("ollama_service", Status.ERROR) ∈ run_checks e) ∧
      (e.llama.raises = true →
        ("llama_cpp", Status.ERROR) ∈ run_checks e) ∧
      (e.vscode.raises = true →
        ("vscode_integration", Status.ERROR) ∈ run_checks e) ∧
      (e.network.raises = true →
        ("network", Status.ERROR) ∈ run_checks e) ∧
      (e.perf.raises = true →
        ("performance", Status.ERROR) ∈ run_checks e) ∧
      check_performance_metrics e.perf <:+ run_checks e) := by
  refine ⟨?_, ?_, ?_, ?_⟩
  · intro probe model prompts
    simp [modelResults]
  · intro models probe prompts
    constructor
    · simp [run_comprehensive_benchmark]
    · intro entry hmem
      simp only [run_comprehensive_benchmark, List.mem_map] at hmem
      obtain ⟨m, -, rfl⟩ := hmem
      simp [modelResults]
  · intro model o ho
    cases o with
    | ok s q => simp [probeFails] at ho
    | timeoutExpired => simp [benchmark_model]
    | exc msg q => simp [benchmark_model]
  · intro e
    refine ⟨?_, ?_, ?_, ?_, ?_, ?_⟩
    · intro hr
      simp [run_checks, check_ollama_service, hr]
    · intro hr
      simp [run_checks, check_llama_cpp, hr]
    · intro hr
      simp [run_checks, check_vscode_integration, hr]
    · intro hr
      simp [run_checks, check_network_connectivity, hr]
    · intro hr
      simp [run_checks, check_performance_metrics, hr]
    · exact ⟨(check_system_info e.sys).1 ++ (check_ollama_service e.ollama ++
        (check_llama_cpp e.llama ++ (check_vscode_integration e.vscode ++
          check_network_connectivity e.network))),
        by simp [run_checks]⟩

/-- C1 witness: the theorem applied at a timed-out probe and at a run
environment in which every category raises. -/
theorem c1_batch_isolation_witness :
    ((benchmark_model "m" ProbeOutcome.timeoutExpired).success = false ∧
      (benchmark_model "m" ProbeOutcome.timeoutExpired).error ≠ none) ∧
    ("ollama_service", Status.ERROR) ∈ run_checks envAllRaises ∧
    ("performance", Status.ERROR) ∈ run_checks envAllRaises :=
  ⟨c1_batch_isolation.2.2.1 "m" ProbeOutcome.timeoutExpired rfl,
   (c1_batch_isolation.2.2.2 envAllRaises).1 rfl,
   (c1_batch_isolation.2.2.2 envAllRaises).2.2.2.2.1 rfl⟩

/-- C10: a found (running) daemon or inference-server process records no
entry in the checks map — only the not-running branches record a WARNING
— and the port probes of the network check record nothing whatever their
outcomes, so none of these passing checks can influence counts, verdict
or recommendations. -/
theorem c10_passing_checks_unrecorded :
    (∀ e : OllamaEnv, e.processRunning = true →
      ∀ s : Status, ("ollama_process", s) ∉ check_ollama_service e) ∧
    (∀ e : OllamaEnv, e.raises = false → e.processRunning = false →
      ("ollama_process", Status.WARNING) ∈ check_ollama_service e) ∧
    (∀ e : LlamaEnv, e.serverRunning = true →
      ∀ s : Status, ("llama_cpp_server", s) ∉ check_llama_cpp e) ∧
    (∀ e : LlamaEnv, e.raises = false → e.serverRunning = false →
      ("llama_cpp_server", Status.WARNING) ∈ check_llama_cpp e) ∧
    (∀ (e : NetworkEnv) (entry : String × Status),
      entry ∈ check_network_connectivity e →
      entry.1 = "internet" ∨ entry.1 = "network") ∧
    (∀ (e : NetworkEnv) (ports : List Bool),
      check_network_connectivity { e with portResults := ports } =
        check_network_connectivity e) := by
  refine ⟨?_, ?_, ?_, ?_, ?_, ?_⟩
  · rintro ⟨raises, pr, api, tags⟩ h s hmem
    simp only at h
    subst h
    cases raises <;> cases api <;> cases tags <;>
      simp [check_ollama_service] at hmem <;> split_ifs at hmem <;> simp_all
  · rintro ⟨raises, pr, api, tags⟩ h1 h2
    simp only at h1 h2
    subst h1
    subst h2
    simp [check_ollama_service]
  · rintro ⟨raises, sr, api, dir, gguf⟩ h s hmem
    simp only at h
    subst h
    cases raises <;> cases api <;> cases dir <;>
      simp [check_llama_cpp] at hmem <;> split_ifs at hmem <;> simp_all
  · rintro ⟨raises, sr, api, dir, gguf⟩ h1 h2
    simp only at h1 h2
    subst h1
    subst h2
    simp [check_llama_cpp]
  · rintro ⟨raises, inet, ports⟩ entry hmem
    cases raises <;> cases inet <;>
      simp [check_network_connectivity, portLoop_records_nothing] at hmem <;>
      simp [hmem]
  · intro e ports
    simp [check_network_connectivity, portLoop_records_nothing]

/-- C10 witness: the theorem applied at concrete environments with a
running daemon process, a stopped daemon process, and a network probe
entry. -/
theorem c10_passing_checks_unrecorded_witness :
    ("ollama_process", Status.OK) ∉ check_ollama_service emptyModelsEnv ∧
    ("ollama_process", Status.WARNING) ∈ check_ollama_service
      { emptyModelsEnv with processRunning := false } ∧
    ((("internet", Status.OK) : String × Status).1 = "internet" ∨
      (("internet", Status.OK) : String × Status).1 = "network") :=
  ⟨c10_passing_checks_unrecorded.1 emptyModelsEnv rfl Status.OK,
   c10_passing_checks_unrecorded.2.1 _ rfl rfl,
   c10_passing_checks_unrecorded.2.2.2.2.1
     { raises := false, internet := .status 200, portResults := [true, false] }
     ("internet", Status.OK) (by decide)⟩

/-- C7: evaluation at the failing input.  When the tags endpoint answers
200 with an empty models list, the code prints the Models line with
status WARNING yet records ollama_models as OK (the assignment at
health_check.py line 187 sits outside the model-count branch), so the
recommendation engine — which fires the pull suggestion only on a
recorded WARNING — omits the model-pull suggestion, contradicting the
claim. -/
theorem c7_empty_models_pull_suggestion_missing :
    ollama_models_printed_status (TagsOutcome.status 200 []) =
      Status.WARNING ∧
    getCheck (check_ollama_service emptyModelsEnv) "ollama_models" =
      some Status.OK ∧
    "Download models: ollama pull dolphin-mistral:7b-dpo-laser" ∉
      generate_recommendations (check_ollama_service emptyModelsEnv)
        (some 32) "darwin" := by
  refine ⟨rfl, rfl, ?_⟩
  decide

/-- C6 counterexample: the claim places both 12 GB and 4 GB in the same
(bottom) tier of its stated ≥32/≥16/else partition, yet the code
recommends different size classes for them — its partition is at 16 and
8 GB, not 32 and 16. -/
theorem c6_spec_tiers_refuted :
    memTierSpec 12 = memTierSpec 4 ∧
    memory_tier_rec 12 ≠ memory_tier_rec 4 := by
  refine ⟨by norm_num [memTierSpec], ?_⟩
  have h1 : memory_tier_rec 12 =
      "Medium models (7B-13B) should provide good performance" := by
    norm_num [memory_tier_rec]
  have h2 : memory_tier_rec 4 =
      "Limited memory - stick to small models (3B-7B)" := by
    norm_num [memory_tier_rec]
  rw [h1, h2]
  decide

/-- C6 amended: the memory-tier rule partitions total memory at 16 GB
and 8 GB (not 32 and 16); the recommended size class is a function of
that tier, and every recommendation list contains exactly one
model-size-class recommendation, the one for the snapshot's total
memory (defaulted to 0 when absent). -/
theorem c6_memory_tier_amended :
    (∀ m m' : ℚ, memTierCode m = memTierCode m' →
      memory_tier_rec m = memory_tier_rec m') ∧
    (∀ (checks : List (String × Status)) (mem : Option ℚ)
        (platform : String),
      (generate_recommendations checks mem platform).filter
        (fun s => isSizeClassRec s) = [memory_tier_rec (mem.getD 0)]) := by
  constructor
  · intro m m' h
    simp only [memTierCode] at h
    simp only [memory_tier_rec]
    split_ifs at h ⊢ <;> first | rfl | omega
  · intro checks mem platform
    have hmt : isSizeClassRec (memory_tier_rec (mem.getD 0)) = true := by
      simp only [memory_tier_rec]
      split_ifs <;> decide
    have hd : isSizeClassRec
        "For Apple Silicon: Ensure Metal acceleration is enabled (LLAMA_METAL=1)" =
        false := by decide
    have hl : isSizeClassRec
        "Consider installing CUDA drivers for NVIDIA GPU acceleration" =
        false := by decide
    simp only [generate_recommendations, List.filter_append]
    rw [filter_ite_single _ _ _ (by decide), filter_ite_single _ _ _ (by decide),
      filter_ite_single _ _ _ (by decide), filter_ite_single _ _ _ (by decide),
      filter_ite_single _ _ _ (by decide), filter_ite_single _ _ _ (by decide),
      filter_ite_single _ _ _ (by decide)]
    split_ifs <;> simp [List.filter, hmt, hd, hl]

/-- C6 amended witness: the theorem applied at 20 GB and 18 GB, two
memories in the same code tier, and at a concrete recommendation run. -/
theorem c6_memory_tier_amended_witness :
    memory_tier_rec 20 = memory_tier_rec 18 ∧
    (generate_recommendations [] (some 20) "other").filter
      (fun s => isSizeClassRec s) = [memory_tier_rec ((some (20 : ℚ)).getD 0)] :=
  ⟨c6_memory_tier_amended.1 20 18 (by norm_num [memTierCode]),
   c6_memory_tier_amended.2 [] (some 20) "other"⟩

unseal List.merge List.mergeSort in
/-- C8: the displayed ranking is the targets sorted by average
tokens/sec descending with a stable tie-break: on the quoted example
with averages A=12, B=12, C=30 inserted in order [A, B, C] the output is
[C, A, B]; in general the output is a permutation of the input, pairwise
non-increasing in average tokens/sec, and any input pair already in
ranking order — in particular any tie, in insertion order — survives as
a sublist. -/
theorem c8_ranking_stable_descending :
    sorted_models
        [("A", exampleSummary 12), ("B", exampleSummary 12),
         ("C", exampleSummary 30)] =
      [("C", exampleSummary 30), ("A", exampleSummary 12),
       ("B", exampleSummary 12)] ∧
    (∀ rs : List (String × TargetSummary),
      (sorted_models rs).Pairwise (fun x y =>
        y.2.average_tokens_per_second ≤ x.2.average_tokens_per_second) ∧
      List.Perm (sorted_models rs) rs) ∧
    (∀ (rs : List (String × TargetSummary)) (x y : String × TargetSummary),
      List.Sublist [x, y] rs →
      y.2.average_tokens_per_second ≤ x.2.average_tokens_per_second →
      List.Sublist [x, y] (sorted_models rs)) := by
  have htrans : ∀ a b c : String × TargetSummary,
      decide (b.2.average_tokens_per_second ≤ a.2.average_tokens_per_second) →
      decide (c.2.average_tokens_per_second ≤ b.2.average_tokens_per_second) →
      decide (c.2.average_tokens_per_second ≤ a.2.average_tokens_per_second) := by
    intro a b c hab hbc
    simp only [decide_eq_true_eq] at hab hbc ⊢
    exact le_trans hbc hab
  have htotal : ∀ a b : String × TargetSummary,
      (decide (b.2.average_tokens_per_second ≤ a.2.average_tokens_per_second) ||
        decide (a.2.average_tokens_per_second ≤ b.2.average_tokens_per_second)) = true := by
    intro a b
    simp only [Bool.or_eq_true, decide_eq_true_eq]
    exact le_total _ _
  refine ⟨by decide, ?_, ?_⟩
  · intro rs
    constructor
    · exact (List.sorted_mergeSort htrans htotal rs).imp
        (fun h => of_decide_eq_true h)
    · exact List.mergeSort_perm rs _
  · intro rs x y hsub hle
    exact List.pair_sublist_mergeSort htrans htotal
      (decide_eq_true hle) hsub

/-- C8 witness: the stability part of the theorem applied at the pair of
tied targets of the quoted example. -/
theorem c8_ranking_stable_descending_witness :
    List.Sublist [("A", exampleSummary 12), ("B", exampleSummary 12)]
      (sorted_models [("A", exampleSummary 12), ("B", exampleSummary 12)]) :=
  c8_ranking_stable_descending.2.2 _ _ _ (List.Sublist.refl _) (by decide)

end LocalAI
